import Mathlib

/-!
Shallow embedding of `clustering.py`, a demonstration script that formulates
a 2-D point-clustering problem as a discrete quadratic model (DQM) and submits
it to a remote hybrid sampler.

The script's observable behaviour is modelled as a list of `Event`s emitted in
program order: DQM construction steps (`add_variable`, `set_quadratic_case`),
the single remote sampler call, and the display / output steps.  Real-valued
weights are modelled over `ℝ`; the remote sampler's answer is abstracted as a
function `sample : ℕ → ℕ` from variable index to chosen case, supplied as a
parameter.  The helper module `utilities` (with `get_groupings`,
`visualize_groupings`, `visualize_scatterplot`) is not part of the sources, so
those functions are modelled from the spec; everything else is translated
directly from `clustering.py`.
-/

/-- Observable steps of the script, in program order. -/
inductive Event where
  | addVariable (num_cases : ℕ)
  | setQuadraticCase (u : ℕ) (u_case : ℕ) (v : ℕ) (v_case : ℕ) (bias : ℝ)
  | sampleDQM
  | visualizeScatterplot (filename : String)
  | visualizeGroupings (filename : String)
  | printGroupings (groupings : List (ℕ × ℕ))
  | printSummary (orig_filename : String) (clustered_filename : String)

/-- The `Coordinate` class of `clustering.py` (lines 25-28): a 2-D point. -/
structure Coordinate where
  x : ℝ
  y : ℝ

instance : Inhabited Coordinate := ⟨⟨0, 0⟩⟩

/-- `get_distance` (lines 30-34): Euclidean distance between two coordinates. -/
noncomputable def get_distance (coordinate_0 coordinate_1 : Coordinate) : ℝ :=
  Real.sqrt ((coordinate_0.x - coordinate_1.x) ^ 2 + (coordinate_0.y - coordinate_1.y) ^ 2)

/-- `get_max_distance` (lines 37-44): maximum pairwise distance, starting
from 0, looping `for i, coord0 in enumerate(coordinates[:-1])` and
`for coord1 in coordinates[i+1:]`. -/
noncomputable def get_max_distance (coordinates : List Coordinate) : ℝ :=
  coordinates.dropLast.enum.foldl
    (fun acc p =>
      (coordinates.drop (p.1 + 1)).foldl
        (fun max_distance coord1 => max max_distance (get_distance p.2 coord1)) acc)
    0

/-- Events of the first bias loop (lines 71-80): for each pair `i < j`,
`weight = -cos(d*pi)` with `d` the rescaled distance, applied at
`(i, icolor, j, icolor)` for `icolor in range(3)`. -/
noncomputable def sameColorEvents (coordinates : List Coordinate) (max_distance : ℝ) :
    List Event :=
  coordinates.dropLast.enum.flatMap fun p =>
    (List.range' (p.1 + 1) (coordinates.length - (p.1 + 1))).flatMap fun j =>
      let coord1 := coordinates.getD j default
      let d := get_distance p.2 coord1 / max_distance
      let weight := -Real.cos (d * Real.pi)
      (List.range 3).map fun icolor => Event.setQuadraticCase p.1 icolor j icolor weight

/-- Events of the second bias loop (lines 83-98): for each pair `i < j`,
`d = sqrt(distance / max_distance)`, `weight = -tanh(d) * 0.1`, applied at
the six unequal case pairs. -/
noncomputable def diffColorEvents (coordinates : List Coordinate) (max_distance : ℝ) :
    List Event :=
  coordinates.dropLast.enum.flatMap fun p =>
    (List.range' (p.1 + 1) (coordinates.length - (p.1 + 1))).flatMap fun j =>
      let coord1 := coordinates.getD j default
      let d := Real.sqrt (get_distance p.2 coord1 / max_distance)
      let weight := -Real.tanh d * 0.1
      [Event.setQuadraticCase p.1 0 j 1 weight,
       Event.setQuadraticCase p.1 0 j 2 weight,
       Event.setQuadraticCase p.1 1 j 0 weight,
       Event.setQuadraticCase p.1 1 j 2 weight,
       Event.setQuadraticCase p.1 2 j 0 weight,
       Event.setQuadraticCase p.1 2 j 1 weight]

/-- Model-construction part of `cluster_points` (lines 61-98): one
`add_variable(3)` per coordinate, then the two bias loops. -/
noncomputable def buildEvents (coordinates : List Coordinate) : List Event :=
  (coordinates.map fun _ => Event.addVariable 3)
    ++ sameColorEvents coordinates (max (get_max_distance coordinates) 1)
    ++ diffColorEvents coordinates (max (get_max_distance coordinates) 1)

/-- Modelled from the spec: `get_groupings` lives in `utilities`, which is not
among the sources.  The spec describes the grouping result as "a mapping from
point index to an assigned category (0-2), received from the external service
and used only for display". -/
def get_groupings (sample : ℕ → ℕ) (coordinates : List Coordinate) : List (ℕ × ℕ) :=
  (List.range coordinates.length).map fun k => (k, sample k)

/-- `cluster_points` (lines 47-112) as an event trace.  The
`problem_inspector` argument is accepted (line 47) but, exactly as in the
source, never used by the body.  `sample` abstracts
`sampleset.first.sample`, the answer of the remote sampler. -/
noncomputable def cluster_points (scattered_points : List (ℝ × ℝ)) (filename : String)
    (problem_inspector : Bool) (sample : ℕ → ℕ) : List Event :=
  let coordinates := scattered_points.map fun p => Coordinate.mk p.1 p.2
  buildEvents coordinates
    ++ Event.sampleDQM
      :: Event.visualizeGroupings filename
      :: [Event.printGroupings (get_groupings sample coordinates)]

/-- `cluster_points` under a fallible sampler: the body has no exception
handler, so an error from `sampler.sample_dqm` (line 102) propagates and no
later step runs. -/
noncomputable def cluster_points_run (ε : Type) (scattered_points : List (ℝ × ℝ))
    (filename : String) (problem_inspector : Bool)
    (sampler_result : Except ε (ℕ → ℕ)) : Except ε (List Event) :=
  match sampler_result with
  | Except.error e => Except.error e
  | Except.ok sample =>
      Except.ok (cluster_points scattered_points filename problem_inspector sample)

/-- The hardcoded data set of `__main__` (line 123). -/
def scattered_points : List (ℝ × ℝ) := [(0, 0), (1, 1), (2, 4), (3, 2)]

/-- Output file of the unclustered plot (line 126). -/
def orig_filename : String := "four_points.png"

/-- Output file of the clustered plot (line 131). -/
def clustered_filename : String := "four_points_clustered.png"

/-- The `__main__` block (lines 115-135) as an event trace: save the original
scatter plot, run `cluster_points`, print the summary line naming both output
files.  `problem_inspector` is the parsed command-line flag value. -/
noncomputable def main_trace (problem_inspector : Bool) (sample : ℕ → ℕ) : List Event :=
  Event.visualizeScatterplot orig_filename
    :: (cluster_points scattered_points clustered_filename problem_inspector sample
      ++ [Event.printSummary orig_filename clustered_filename])

/-- Does an event match the quadratic bias slot of pair `(i, c0)`, `(j, c1)`
(in either argument order, as in `dimod`)? -/
def keyMatches (i c0 j c1 : ℕ) : Event → Bool
  | Event.setQuadraticCase u cu v cv _ =>
      (u == i && cu == c0 && v == j && cv == c1) || (u == j && cu == c1 && v == i && cv == c0)
  | _ => false

/-- Bias value carried by a `setQuadraticCase` event. -/
def biasOf : Event → ℝ
  | Event.setQuadraticCase _ _ _ _ w => w
  | _ => 0

/-- All biases the trace sets on the slot of pair `(i, c0)`, `(j, c1)`. -/
noncomputable def setBiases (tr : List Event) (i c0 j c1 : ℕ) : List ℝ :=
  (tr.filter (keyMatches i c0 j c1)).map biasOf

/-- Is the event the remote sampler call? -/
def isSampleCall : Event → Bool
  | Event.sampleDQM => true
  | _ => false

/-- Is the event a DQM construction step? -/
def isModelEdit : Event → Bool
  | Event.addVariable _ => true
  | Event.setQuadraticCase _ _ _ _ _ => true
  | _ => false

/-- Is the event a quadratic bias assignment? -/
def isSetQuad : Event → Bool
  | Event.setQuadraticCase _ _ _ _ _ => true
  | _ => false

/-- Is the event a write of an image file? -/
def isFileWrite : Event → Bool
  | Event.visualizeScatterplot _ => true
  | Event.visualizeGroupings _ => true
  | _ => false

/-- Is the event the write of the clustered plot? -/
def isClusteredWrite : Event → Bool
  | Event.visualizeGroupings _ => true
  | _ => false

/-- Is the event the printed summary line? -/
def isSummaryLine : Event → Bool
  | Event.printSummary _ _ => true
  | _ => false

/-- Numbers of cases of the variables added to the DQM, in order. -/
def dqmNumCases (tr : List Event) : List ℕ :=
  tr.filterMap fun e =>
    match e with
    | Event.addVariable c => some c
    | _ => none

/-- A sampler answer is valid for a case-count list when every variable is
assigned one of its cases. -/
def ValidSample (num_cases : List ℕ) (sample : ℕ → ℕ) : Prop :=
  ∀ k, k < num_cases.length → sample k < num_cases.getD k 0

/-- The distance function of `clustering.py` is symmetric in its two
arguments (claim C5). -/
theorem get_distance_symm (coordinate_0 coordinate_1 : Coordinate) :
    get_distance coordinate_0 coordinate_1 = get_distance coordinate_1 coordinate_0 := by
  unfold get_distance
  ring_nf

/-- The scaling factor `max(get_max_distance(coordinates), 1)` computed in
`cluster_points` is at least 1, hence nonzero, and every rescaled distance
is well-defined and non-negative (claim C4). -/
theorem max_distance_ge_one (coordinates : List Coordinate) :
    1 ≤ max (get_max_distance coordinates) 1
      ∧ max (get_max_distance coordinates) 1 ≠ 0
      ∧ ∀ coordinate_0 coordinate_1 : Coordinate,
          0 ≤ get_distance coordinate_0 coordinate_1 / max (get_max_distance coordinates) 1 := by
  have h1 : (1 : ℝ) ≤ max (get_max_distance coordinates) 1 := le_max_right _ _
  have hpos : (0 : ℝ) < max (get_max_distance coordinates) 1 := lt_of_lt_of_le one_pos h1
  refine ⟨h1, ne_of_gt hpos, fun c0 c1 => ?_⟩
  exact div_nonneg (Real.sqrt_nonneg _) (le_of_lt hpos)

/-- Every event emitted by the first bias loop is a quadratic bias assignment. -/
theorem sameColorEvents_isSetQuad (coordinates : List Coordinate) (max_distance : ℝ) :
    ∀ e ∈ sameColorEvents coordinates max_distance, isSetQuad e = true := by
  intro e he
  unfold sameColorEvents at he
  simp only [List.mem_flatMap, List.mem_map] at he
  rcases he with ⟨p, _, j, _, icolor, _, rfl⟩
  rfl

/-- Every event emitted by the second bias loop is a quadratic bias assignment. -/
theorem diffColorEvents_isSetQuad (coordinates : List Coordinate) (max_distance : ℝ) :
    ∀ e ∈ diffColorEvents coordinates max_distance, isSetQuad e = true := by
  intro e he
  unfold diffColorEvents at he
  simp only [List.mem_flatMap, List.mem_cons, List.not_mem_nil, or_false] at he
  rcases he with ⟨p, _, j, _, rfl | rfl | rfl | rfl | rfl | rfl⟩ <;> rfl

/-- Every event emitted during model construction is a DQM construction step. -/
theorem buildEvents_isModelEdit (coordinates : List Coordinate) :
    ∀ e ∈ buildEvents coordinates, isModelEdit e = true := by
  intro e he
  unfold buildEvents at he
  simp only [List.mem_append, List.mem_map] at he
  rcases he with (⟨_, _, rfl⟩ | hs) | hd
  · rfl
  · have := sameColorEvents_isSetQuad _ _ _ hs
    cases e <;> simp_all [isSetQuad, isModelEdit]
  · have := diffColorEvents_isSetQuad _ _ _ hd
    cases e <;> simp_all [isSetQuad, isModelEdit]

/-- A predicate false on every DQM construction step counts zero occurrences
in the model-construction events. -/
theorem countP_buildEvents_eq_zero (coordinates : List Coordinate) (p : Event → Bool)
    (hp : ∀ e, isModelEdit e = true → p e = false) :
    (buildEvents coordinates).countP p = 0 := by
  rw [List.countP_eq_zero]
  intro e he
  simp [hp e (buildEvents_isModelEdit coordinates e he)]

/-- A predicate false on every DQM construction step filters the
model-construction events to the empty list. -/
theorem filter_buildEvents_eq_nil (coordinates : List Coordinate) (p : Event → Bool)
    (hp : ∀ e, isModelEdit e = true → p e = false) :
    (buildEvents coordinates).filter p = [] := by
  rw [List.filter_eq_nil_iff]
  intro e he
  simp [hp e (buildEvents_isModelEdit coordinates e he)]

/-- When a predicate holds on all of the first list, `takeWhile` passes
through it. -/
theorem takeWhile_append_of_forall {α : Type} (p : α → Bool) (l1 l2 : List α)
    (h : ∀ x ∈ l1, p x = true) :
    (l1 ++ l2).takeWhile p = l1 ++ l2.takeWhile p := by
  induction l1 with
  | nil => rfl
  | cons a l ih =>
      simp only [List.cons_append, List.takeWhile_cons, h a (List.mem_cons_self a l), if_pos]
      rw [ih fun x hx => h x (List.mem_cons_of_mem a hx)]

/-- The hardcoded data set of `__main__` is exactly the four points
`(0,0), (1,1), (2,4), (3,2)`, and the whole pipeline consumes precisely this
list (claim C7). -/
theorem main_input_hardcoded :
    scattered_points = [((0 : ℝ), (0 : ℝ)), (1, 1), (2, 4), (3, 2)]
      ∧ scattered_points.length = 4
      ∧ ∀ (problem_inspector : Bool) (sample : ℕ → ℕ),
          main_trace problem_inspector sample
            = Event.visualizeScatterplot orig_filename
              :: (cluster_points scattered_points clustered_filename problem_inspector sample
                ++ [Event.printSummary orig_filename clustered_filename]) :=
  ⟨rfl, rfl, fun _ _ => rfl⟩

/-- The `problem_inspector` command-line flag is parsed and passed to
`cluster_points` but never used there, so the behaviour of the program is
identical for both values of the flag (claim C2: the code contradicts its
own docstring and help text, which say the flag controls the problem
inspector). -/
theorem problem_inspector_flag_has_no_effect :
    (∀ (pts : List (ℝ × ℝ)) (filename : String) (sample : ℕ → ℕ),
        cluster_points pts filename true sample = cluster_points pts filename false sample)
      ∧ ∀ sample : ℕ → ℕ, main_trace true sample = main_trace false sample :=
  ⟨fun _ _ _ => rfl, fun _ => rfl⟩

/-- An error raised by the remote sampler propagates unchanged out of
`cluster_points`: no handler intercepts it, no retry happens, and no later
step of the trace is produced; on success the single sampler answer is used
exactly once (claim C9). -/
theorem sampler_error_propagates (ε : Type) :
    (∀ (e : ε) (pts : List (ℝ × ℝ)) (filename : String) (problem_inspector : Bool),
        cluster_points_run ε pts filename problem_inspector (Except.error e)
          = Except.error e)
      ∧ ∀ (sample : ℕ → ℕ) (pts : List (ℝ × ℝ)) (filename : String)
          (problem_inspector : Bool),
          cluster_points_run ε pts filename problem_inspector (Except.ok sample)
            = Except.ok (cluster_points pts filename problem_inspector sample) :=
  ⟨fun _ _ _ _ => rfl, fun _ _ _ _ => rfl⟩

/-- A DQM construction step is not the sampler call. -/
theorem isSampleCall_false_of_modelEdit : ∀ e, isModelEdit e = true → isSampleCall e = false := by
  intro e he
  cases e <;> simp_all [isModelEdit, isSampleCall]

/-- A DQM construction step is not a write of the clustered plot. -/
theorem isClusteredWrite_false_of_modelEdit :
    ∀ e, isModelEdit e = true → isClusteredWrite e = false := by
  intro e he
  cases e <;> simp_all [isModelEdit, isClusteredWrite]

/-- A DQM construction step is not a file write. -/
theorem isFileWrite_false_of_modelEdit : ∀ e, isModelEdit e = true → isFileWrite e = false := by
  intro e he
  cases e <;> simp_all [isModelEdit, isFileWrite]

/-- A DQM construction step is not the summary line. -/
theorem isSummaryLine_false_of_modelEdit :
    ∀ e, isModelEdit e = true → isSummaryLine e = false := by
  intro e he
  cases e <;> simp_all [isModelEdit, isSummaryLine]

/-- The unclustered scatter plot is written before the remote sampler call:
the file-write event occurs in the part of the trace strictly preceding the
first sampler call, refuting the claim that no output file is written before
the remote call completes (counterexample for claim C3). -/
theorem scatterplot_written_before_sampler_call :
    Event.visualizeScatterplot "four_points.png"
      ∈ (main_trace true fun _ => 0).takeWhile fun e => !isSampleCall e := by
  rw [main_trace, List.takeWhile_cons]
  simp [isSampleCall, orig_filename]

/-- Execution of `__main__` is strictly sequential, in this order: write the
unclustered scatter plot, build the weighted model, issue the single sampler
call, process the result and write the clustered plot, print the groupings,
print the summary; the sampler is called exactly once and the clustered plot
is never written before the sampler call (amended claim C3). -/
theorem main_execution_order (problem_inspector : Bool) (sample : ℕ → ℕ) :
    main_trace problem_inspector sample
        = Event.visualizeScatterplot orig_filename
          :: (buildEvents (scattered_points.map fun p => Coordinate.mk p.1 p.2)
            ++ Event.sampleDQM
              :: Event.visualizeGroupings clustered_filename
              :: Event.printGroupings
                  (get_groupings sample (scattered_points.map fun p => Coordinate.mk p.1 p.2))
              :: [Event.printSummary orig_filename clustered_filename])
      ∧ (main_trace problem_inspector sample).countP isSampleCall = 1
      ∧ ((main_trace problem_inspector sample).takeWhile fun e => !isSampleCall e).countP
          isClusteredWrite = 0 := by
  refine ⟨?_, ?_, ?_⟩
  · simp [main_trace, cluster_points, List.append_assoc, List.cons_append]
  · rw [main_trace, cluster_points]
    simp only [List.countP_cons, List.countP_append, List.countP_nil]
    rw [countP_buildEvents_eq_zero _ _ isSampleCall_false_of_modelEdit]
    simp [isSampleCall]
  · rw [main_trace, cluster_points, List.takeWhile_cons]
    rw [if_pos (by simp [isSampleCall])]
    rw [List.append_assoc]
    rw [takeWhile_append_of_forall _ _ _
        (fun e he => by
          simp [isSampleCall_false_of_modelEdit e (buildEvents_isModelEdit _ e he)])]
    rw [List.cons_append, List.takeWhile_cons, if_neg (by simp [isSampleCall])]
    simp only [List.countP_cons, List.countP_append, List.countP_nil]
    rw [countP_buildEvents_eq_zero _ _ isClusteredWrite_false_of_modelEdit]
    simp [isClusteredWrite]

/-- A successful run writes exactly two image files, the unclustered plot
`four_points.png` followed by the clustered plot `four_points_clustered.png`,
and prints exactly one summary line naming both files (claim C8). -/
theorem output_files_and_summary (problem_inspector : Bool) (sample : ℕ → ℕ) :
    (main_trace problem_inspector sample).filter isFileWrite
        = [Event.visualizeScatterplot "four_points.png",
           Event.visualizeGroupings "four_points_clustered.png"]
      ∧ (main_trace problem_inspector sample).filter isSummaryLine
        = [Event.printSummary "four_points.png" "four_points_clustered.png"] := by
  constructor
  · rw [main_trace, cluster_points, List.filter_cons, if_pos (by simp [isFileWrite])]
    simp only [List.filter_append]
    rw [filter_buildEvents_eq_nil _ _ isFileWrite_false_of_modelEdit]
    simp [isFileWrite, List.filter_cons, orig_filename, clustered_filename]
  · rw [main_trace, cluster_points, List.filter_cons, if_neg (by simp [isSummaryLine])]
    simp only [List.filter_append]
    rw [filter_buildEvents_eq_nil _ _ isSummaryLine_false_of_modelEdit]
    simp [isSummaryLine, List.filter_cons, orig_filename, clustered_filename]

/-- Case counts distribute over trace concatenation. -/
theorem dqmNumCases_append (l1 l2 : List Event) :
    dqmNumCases (l1 ++ l2) = dqmNumCases l1 ++ dqmNumCases l2 :=
  List.filterMap_append _ _ _

/-- The `add_variable` loop registers one variable with 3 cases per
coordinate. -/
theorem dqmNumCases_addVars (l : List Coordinate) :
    dqmNumCases (l.map fun _ => Event.addVariable 3) = List.replicate l.length 3 := by
  induction l with
  | nil => rfl
  | cons a t ih =>
      simp only [List.map_cons, dqmNumCases, List.filterMap_cons] at ih ⊢
      simp [ih, List.replicate_succ]

/-- The first bias loop adds no variable. -/
theorem dqmNumCases_sameColor (coordinates : List Coordinate) (max_distance : ℝ) :
    dqmNumCases (sameColorEvents coordinates max_distance) = [] := by
  rw [dqmNumCases, List.filterMap_eq_nil_iff]
  intro e he
  have := sameColorEvents_isSetQuad coordinates max_distance e he
  cases e <;> simp_all [isSetQuad]

/-- The second bias loop adds no variable. -/
theorem dqmNumCases_diffColor (coordinates : List Coordinate) (max_distance : ℝ) :
    dqmNumCases (diffColorEvents coordinates max_distance) = [] := by
  rw [dqmNumCases, List.filterMap_eq_nil_iff]
  intro e he
  have := diffColorEvents_isSetQuad coordinates max_distance e he
  cases e <;> simp_all [isSetQuad]

/-- Case counts of the DQM built by `cluster_points`: one variable with 3
cases per input point. -/
theorem dqmNumCases_cluster_points (pts : List (ℝ × ℝ)) (filename : String)
    (problem_inspector : Bool) (sample : ℕ → ℕ) :
    dqmNumCases (cluster_points pts filename problem_inspector sample)
      = List.replicate pts.length 3 := by
  rw [cluster_points, buildEvents]
  rw [dqmNumCases_append, dqmNumCases_append, dqmNumCases_append]
  rw [dqmNumCases_addVars, dqmNumCases_sameColor, dqmNumCases_diffColor]
  have htail : dqmNumCases
      [Event.sampleDQM, Event.visualizeGroupings filename,
       Event.printGroupings
         (get_groupings sample (pts.map fun p => Coordinate.mk p.1 p.2))] = [] := rfl
  simp [htail, List.length_map]

/-- Every variable of the discrete quadratic model is created with exactly 3
cases, one variable per input point, so any valid sampler answer assigns each
point index a category among 0, 1, 2 (claim C6). -/
theorem dqm_variables_have_three_cases (pts : List (ℝ × ℝ)) (filename : String)
    (problem_inspector : Bool) (sample : ℕ → ℕ)
    (hs : ValidSample (dqmNumCases (cluster_points pts filename problem_inspector sample))
        sample) :
    dqmNumCases (cluster_points pts filename problem_inspector sample)
        = List.replicate pts.length 3
      ∧ ∀ p ∈ get_groupings sample (pts.map fun q => Coordinate.mk q.1 q.2), p.2 < 3 := by
  have hnc := dqmNumCases_cluster_points pts filename problem_inspector sample
  refine ⟨hnc, ?_⟩
  intro p hp
  simp only [get_groupings, List.mem_map, List.mem_range] at hp
  obtain ⟨k, hk, rfl⟩ := hp
  simp only [List.length_map] at hk
  have hk' : k < (dqmNumCases (cluster_points pts filename problem_inspector sample)).length := by
    rw [hnc, List.length_replicate]
    exact hk
  have hvs := hs k hk'
  rw [hnc] at hvs
  have hget : (List.replicate pts.length 3).getD k 0 = 3 := by
    rw [List.getD_eq_getElem _ _ (by simpa using hk)]
    simp
  rw [hget] at hvs
  exact hvs

/-- Witness for `dqm_variables_have_three_cases` at the hardcoded four-point
input and the constant-zero sampler answer, which is a valid sample of the
built DQM. -/
theorem dqm_variables_have_three_cases_witness :
    dqmNumCases (cluster_points scattered_points clustered_filename true fun _ => 0)
        = List.replicate scattered_points.length 3
      ∧ ∀ p ∈ get_groupings (fun _ => 0) (scattered_points.map fun q => Coordinate.mk q.1 q.2),
          p.2 < 3 :=
  dqm_variables_have_three_cases scattered_points clustered_filename true (fun _ => 0)
    (by
      intro k hk
      rw [dqmNumCases_cluster_points] at hk ⊢
      rw [List.getD_eq_getElem _ _ hk, List.getElem_replicate]
      simp)

/-- Flat-mapping an indicator over `range'` picks out at most the one index
equal to the target. -/
theorem flatMap_range'_single {α : Type} (n : ℕ) :
    ∀ (s t : ℕ) (E : List α),
      ((List.range' s n).flatMap fun j => if j = t then E else [])
        = if s ≤ t ∧ t < s + n then E else [] := by
  induction n with
  | zero => intro s t E; simp
  | succ m ih =>
      intro s t E
      rw [List.range'_succ, List.flatMap_cons]
      by_cases hst : s = t
      · subst hst
        rw [if_pos rfl]
        have hrest : ((List.range' (s + 1) m).flatMap fun j => if j = s then E else []) = [] := by
          rw [ih (s + 1) s E, if_neg (by omega)]
        rw [hrest, if_pos ⟨le_refl s, by omega⟩, List.append_nil]
      · rw [if_neg hst, List.nil_append, ih (s + 1) t E]
        by_cases h2 : s + 1 ≤ t ∧ t < s + 1 + m
        · rw [if_pos h2, if_pos (by omega)]
        · rw [if_neg h2, if_neg (by omega)]

/-- Flat-mapping an index indicator over an enumerated list picks out at most
the entry whose index equals the target. -/
theorem flatMap_enumFrom_single {α β : Type} (l : List α) :
    ∀ (m t : ℕ) (E : α → List β) (d : α),
      ((List.enumFrom m l).flatMap fun p => if p.1 = t then E p.2 else [])
        = if m ≤ t ∧ t < m + l.length then E (l.getD (t - m) d) else [] := by
  induction l with
  | nil => intro m t E d; simp
  | cons a tl ih =>
      intro m t E d
      rw [List.enumFrom_cons, List.flatMap_cons]
      by_cases hmt : m = t
      · subst hmt
        rw [if_pos rfl]
        have hrest :
            ((List.enumFrom (m + 1) tl).flatMap fun p => if p.1 = m then E p.2 else []) = [] := by
          rw [ih (m + 1) m E d, if_neg (by omega)]
        rw [hrest, List.append_nil, if_pos ⟨le_refl m, by simp⟩]
        simp
      · rw [if_neg hmt, List.nil_append, ih (m + 1) t E d]
        by_cases h2 : m + 1 ≤ t ∧ t < m + 1 + tl.length
        · rw [if_pos h2, if_pos (by simp only [List.length_cons]; omega)]
          have ht : t - m = (t - (m + 1)) + 1 := by omega
          rw [ht, List.getD_cons_succ]
        · rw [if_neg h2, if_neg (by simp only [List.length_cons]; omega)]

/-- Filtering the three equal-case events of one pair `(k, j')` by a bias
slot keeps exactly the matching event. -/
theorem filter_same_inner (i c0 j c1 k j' : ℕ) (w : ℝ) (hkj : k < j') (hij : i < j)
    (hc0 : c0 < 3) (hc1 : c1 < 3) :
    ((List.range 3).map fun icolor => Event.setQuadraticCase k icolor j' icolor w).filter
        (keyMatches i c0 j c1)
      = if k = i ∧ j' = j ∧ c0 = c1 then [Event.setQuadraticCase i c0 j c1 w] else [] := by
  by_cases hkey : k = i ∧ j' = j ∧ c0 = c1
  · obtain ⟨rfl, rfl, rfl⟩ := hkey
    rw [if_pos ⟨rfl, rfl, rfl⟩]
    have hne : ¬(k = j') := by omega
    have hne' : ¬(j' = k) := by omega
    have h3 : List.range 3 = [0, 1, 2] := rfl
    rw [h3]
    interval_cases c0 <;> simp [keyMatches, List.filter_cons, hne, hne']
  · rw [if_neg hkey, List.filter_eq_nil_iff]
    intro e he
    simp only [List.mem_map, List.mem_range] at he
    obtain ⟨icolor, hic, rfl⟩ := he
    simp only [keyMatches, Bool.or_eq_true, Bool.and_eq_true, beq_iff_eq]
    omega

/-- Filtering the six unequal-case events of one pair `(k, j')` by a bias
slot keeps exactly the matching event. -/
theorem filter_diff_inner (i c0 j c1 k j' : ℕ) (w : ℝ) (hkj : k < j') (hij : i < j)
    (hc0 : c0 < 3) (hc1 : c1 < 3) :
    List.filter (keyMatches i c0 j c1)
        [Event.setQuadraticCase k 0 j' 1 w,
         Event.setQuadraticCase k 0 j' 2 w,
         Event.setQuadraticCase k 1 j' 0 w,
         Event.setQuadraticCase k 1 j' 2 w,
         Event.setQuadraticCase k 2 j' 0 w,
         Event.setQuadraticCase k 2 j' 1 w]
      = if k = i ∧ j' = j ∧ ¬(c0 = c1) then [Event.setQuadraticCase i c0 j c1 w] else [] := by
  by_cases hkey : k = i ∧ j' = j ∧ ¬(c0 = c1)
  · obtain ⟨rfl, rfl, hcc⟩ := hkey
    rw [if_pos ⟨rfl, rfl, hcc⟩]
    have hne : ¬(k = j') := by omega
    have hne' : ¬(j' = k) := by omega
    interval_cases c0 <;> interval_cases c1 <;>
      simp_all [keyMatches, List.filter_cons]
  · rw [if_neg hkey, List.filter_eq_nil_iff]
    intro e he
    simp only [List.mem_cons, List.not_mem_nil, or_false] at he
    rcases he with rfl | rfl | rfl | rfl | rfl | rfl <;>
      · simp only [keyMatches, Bool.or_eq_true, Bool.and_eq_true, beq_iff_eq]
        omega

/-- Let-free form of the first bias loop. -/
theorem sameColorEvents_eq (coordinates : List Coordinate) (max_distance : ℝ) :
    sameColorEvents coordinates max_distance
      = coordinates.dropLast.enum.flatMap fun p =>
          (List.range' (p.1 + 1) (coordinates.length - (p.1 + 1))).flatMap fun j =>
            (List.range 3).map fun icolor =>
              Event.setQuadraticCase p.1 icolor j icolor
                (-Real.cos
                  (get_distance p.2 (coordinates.getD j default) / max_distance * Real.pi)) :=
  rfl

/-- Let-free form of the second bias loop. -/
theorem diffColorEvents_eq (coordinates : List Coordinate) (max_distance : ℝ) :
    diffColorEvents coordinates max_distance
      = coordinates.dropLast.enum.flatMap fun p =>
          (List.range' (p.1 + 1) (coordinates.length - (p.1 + 1))).flatMap fun j =>
            [Event.setQuadraticCase p.1 0 j 1
                (-Real.tanh (Real.sqrt (get_distance p.2 (coordinates.getD j default)
                  / max_distance)) * 0.1),
             Event.setQuadraticCase p.1 0 j 2
                (-Real.tanh (Real.sqrt (get_distance p.2 (coordinates.getD j default)
                  / max_distance)) * 0.1),
             Event.setQuadraticCase p.1 1 j 0
                (-Real.tanh (Real.sqrt (get_distance p.2 (coordinates.getD j default)
                  / max_distance)) * 0.1),
             Event.setQuadraticCase p.1 1 j 2
                (-Real.tanh (Real.sqrt (get_distance p.2 (coordinates.getD j default)
                  / max_distance)) * 0.1),
             Event.setQuadraticCase p.1 2 j 0
                (-Real.tanh (Real.sqrt (get_distance p.2 (coordinates.getD j default)
                  / max_distance)) * 0.1),
             Event.setQuadraticCase p.1 2 j 1
                (-Real.tanh (Real.sqrt (get_distance p.2 (coordinates.getD j default)
                  / max_distance)) * 0.1)] :=
  rfl

/-- The first bias loop sets the slot of pair `(i, c0)`, `(j, c1)` exactly
once when `c0 = c1`, with the weight `-cos(d*pi)` of the rescaled distance
`d`, and never when `c0 ≠ c1`. -/
theorem filter_sameColor (coordinates : List Coordinate) (M : ℝ) (i j c0 c1 : ℕ)
    (hij : i < j) (hjn : j < coordinates.length) (hc0 : c0 < 3) (hc1 : c1 < 3) :
    (sameColorEvents coordinates M).filter (keyMatches i c0 j c1)
      = if c0 = c1 then
          [Event.setQuadraticCase i c0 j c1
            (-Real.cos (get_distance (coordinates.getD i default) (coordinates.getD j default)
              / M * Real.pi))]
        else [] := by
  rw [sameColorEvents_eq, List.filter_flatMap]
  have hstep : ∀ p ∈ coordinates.dropLast.enum,
      List.filter (keyMatches i c0 j c1)
          ((List.range' (p.1 + 1) (coordinates.length - (p.1 + 1))).flatMap fun j' =>
            (List.range 3).map fun icolor =>
              Event.setQuadraticCase p.1 icolor j' icolor
                (-Real.cos (get_distance p.2 (coordinates.getD j' default) / M * Real.pi)))
        = if p.1 = i then
            (if c0 = c1 then
              [Event.setQuadraticCase i c0 j c1
                (-Real.cos (get_distance p.2 (coordinates.getD j default) / M * Real.pi))]
            else [])
          else [] := by
    intro p hp
    rw [List.filter_flatMap]
    have hinner : ∀ j' ∈ List.range' (p.1 + 1) (coordinates.length - (p.1 + 1)),
        List.filter (keyMatches i c0 j c1)
            ((List.range 3).map fun icolor =>
              Event.setQuadraticCase p.1 icolor j' icolor
                (-Real.cos (get_distance p.2 (coordinates.getD j' default) / M * Real.pi)))
          = if j' = j then
              (if p.1 = i ∧ c0 = c1 then
                [Event.setQuadraticCase i c0 j c1
                  (-Real.cos (get_distance p.2 (coordinates.getD j default) / M * Real.pi))]
              else [])
            else [] := by
      intro j' hj'
      rw [List.mem_range'_1] at hj'
      rw [filter_same_inner i c0 j c1 p.1 j' _ (by omega) hij hc0 hc1]
      by_cases h1 : j' = j
      · subst h1
        by_cases h2 : p.1 = i ∧ c0 = c1
        · rw [if_pos ⟨h2.1, rfl, h2.2⟩, if_pos rfl, if_pos h2]
        · rw [if_neg (by tauto), if_pos rfl, if_neg h2]
      · rw [if_neg (by tauto), if_neg h1]
    refine (List.flatMap_congr hinner).trans ?_
    rw [flatMap_range'_single]
    by_cases hpi : p.1 = i
    · rw [hpi, if_pos (by omega), if_pos rfl]
      by_cases hcc : c0 = c1
      · rw [if_pos ⟨rfl, hcc⟩, if_pos hcc]
      · rw [if_neg (by tauto), if_neg hcc]
    · rw [if_neg hpi]
      by_cases hb : p.1 + 1 ≤ j ∧ j < p.1 + 1 + (coordinates.length - (p.1 + 1))
      · rw [if_pos hb, if_neg (by tauto)]
      · rw [if_neg hb]
  refine (List.flatMap_congr hstep).trans ?_
  rw [List.enum_eq_enumFrom]
  refine (flatMap_enumFrom_single coordinates.dropLast 0 i
      (fun c =>
        if c0 = c1 then
          [Event.setQuadraticCase i c0 j c1
            (-Real.cos (get_distance c (coordinates.getD j default) / M * Real.pi))]
        else [])
      default).trans ?_
  have hlen : i < coordinates.dropLast.length := by
    rw [List.length_dropLast]; omega
  rw [if_pos ⟨Nat.zero_le i, by omega⟩]
  have hgd : coordinates.dropLast.getD (i - 0) default = coordinates.getD i default := by
    have h0 : i - 0 = i := by omega
    rw [h0, List.getD_eq_getElem _ _ hlen, List.getElem_dropLast,
      List.getD_eq_getElem _ _ (by omega)]
  rw [hgd]

/-- The second bias loop sets the slot of pair `(i, c0)`, `(j, c1)` exactly
once when `c0 ≠ c1`, with the weight `-tanh(sqrt(d)) * 0.1` of the rescaled
distance `d`, and never when `c0 = c1`. -/
theorem filter_diffColor (coordinates : List Coordinate) (M : ℝ) (i j c0 c1 : ℕ)
    (hij : i < j) (hjn : j < coordinates.length) (hc0 : c0 < 3) (hc1 : c1 < 3) :
    (diffColorEvents coordinates M).filter (keyMatches i c0 j c1)
      = if c0 = c1 then []
        else
          [Event.setQuadraticCase i c0 j c1
            (-Real.tanh (Real.sqrt (get_distance (coordinates.getD i default)
              (coordinates.getD j default) / M)) * 0.1)] := by
  rw [diffColorEvents_eq, List.filter_flatMap]
  have hstep : ∀ p ∈ coordinates.dropLast.enum,
      List.filter (keyMatches i c0 j c1)
          ((List.range' (p.1 + 1) (coordinates.length - (p.1 + 1))).flatMap fun j' =>
            [Event.setQuadraticCase p.1 0 j' 1
                (-Real.tanh (Real.sqrt (get_distance p.2 (coordinates.getD j' default) / M)) * 0.1),
             Event.setQuadraticCase p.1 0 j' 2
                (-Real.tanh (Real.sqrt (get_distance p.2 (coordinates.getD j' default) / M)) * 0.1),
             Event.setQuadraticCase p.1 1 j' 0
                (-Real.tanh (Real.sqrt (get_distance p.2 (coordinates.getD j' default) / M)) * 0.1),
             Event.setQuadraticCase p.1 1 j' 2
                (-Real.tanh (Real.sqrt (get_distance p.2 (coordinates.getD j' default) / M)) * 0.1),
             Event.setQuadraticCase p.1 2 j' 0
                (-Real.tanh (Real.sqrt (get_distance p.2 (coordinates.getD j' default) / M)) * 0.1),
             Event.setQuadraticCase p.1 2 j' 1
                (-Real.tanh (Real.sqrt (get_distance p.2 (coordinates.getD j' default) / M)) * 0.1)])
        = if p.1 = i then
            (if c0 = c1 then []
            else
              [Event.setQuadraticCase i c0 j c1
                (-Real.tanh (Real.sqrt (get_distance p.2 (coordinates.getD j default) / M)) * 0.1)])
          else [] := by
    intro p hp
    rw [List.filter_flatMap]
    have hinner : ∀ j' ∈ List.range' (p.1 + 1) (coordinates.length - (p.1 + 1)),
        List.filter (keyMatches i c0 j c1)
            [Event.setQuadraticCase p.1 0 j' 1
                (-Real.tanh (Real.sqrt (get_distance p.2 (coordinates.getD j' default) / M)) * 0.1),
             Event.setQuadraticCase p.1 0 j' 2
                (-Real.tanh (Real.sqrt (get_distance p.2 (coordinates.getD j' default) / M)) * 0.1),
             Event.setQuadraticCase p.1 1 j' 0
                (-Real.tanh (Real.sqrt (get_distance p.2 (coordinates.getD j' default) / M)) * 0.1),
             Event.setQuadraticCase p.1 1 j' 2
                (-Real.tanh (Real.sqrt (get_distance p.2 (coordinates.getD j' default) / M)) * 0.1),
             Event.setQuadraticCase p.1 2 j' 0
                (-Real.tanh (Real.sqrt (get_distance p.2 (coordinates.getD j' default) / M)) * 0.1),
             Event.setQuadraticCase p.1 2 j' 1
                (-Real.tanh (Real.sqrt (get_distance p.2 (coordinates.getD j' default) / M)) * 0.1)]
          = if j' = j then
              (if p.1 = i ∧ ¬(c0 = c1) then
                [Event.setQuadraticCase i c0 j c1
                  (-Real.tanh (Real.sqrt (get_distance p.2 (coordinates.getD j default) / M)) * 0.1)]
              else [])
            else [] := by
      intro j' hj'
      rw [List.mem_range'_1] at hj'
      rw [filter_diff_inner i c0 j c1 p.1 j' _ (by omega) hij hc0 hc1]
      by_cases h1 : j' = j
      · subst h1
        by_cases h2 : p.1 = i ∧ ¬(c0 = c1)
        · rw [if_pos ⟨h2.1, rfl, h2.2⟩, if_pos rfl, if_pos h2]
        · rw [if_neg (by tauto), if_pos rfl, if_neg h2]
      · rw [if_neg (by tauto), if_neg h1]
    refine (List.flatMap_congr hinner).trans ?_
    rw [flatMap_range'_single]
    by_cases hpi : p.1 = i
    · rw [hpi, if_pos (by omega), if_pos rfl]
      by_cases hcc : c0 = c1
      · rw [if_neg (by tauto), if_pos hcc]
      · rw [if_pos ⟨rfl, hcc⟩, if_neg hcc]
    · rw [if_neg hpi]
      by_cases hb : p.1 + 1 ≤ j ∧ j < p.1 + 1 + (coordinates.length - (p.1 + 1))
      · rw [if_pos hb, if_neg (by tauto)]
      · rw [if_neg hb]
  refine (List.flatMap_congr hstep).trans ?_
  rw [List.enum_eq_enumFrom]
  refine (flatMap_enumFrom_single coordinates.dropLast 0 i
      (fun c =>
        if c0 = c1 then []
        else
          [Event.setQuadraticCase i c0 j c1
            (-Real.tanh (Real.sqrt (get_distance c (coordinates.getD j default) / M)) * 0.1)])
      default).trans ?_
  have hlen : i < coordinates.dropLast.length := by
    rw [List.length_dropLast]; omega
  rw [if_pos ⟨Nat.zero_le i, by omega⟩]
  have hgd : coordinates.dropLast.getD (i - 0) default = coordinates.getD i default := by
    have h0 : i - 0 = i := by omega
    rw [h0, List.getD_eq_getElem _ _ hlen, List.getElem_dropLast,
      List.getD_eq_getElem _ _ (by omega)]
  rw [hgd]

/-- The `add_variable` loop sets no quadratic bias. -/
theorem filter_addVars_nil (l : List Coordinate) (i c0 j c1 : ℕ) :
    (l.map fun _ => Event.addVariable 3).filter (keyMatches i c0 j c1) = [] := by
  rw [List.filter_eq_nil_iff]
  intro e he
  simp only [List.mem_map] at he
  obtain ⟨_, _, rfl⟩ := he
  simp [keyMatches]

/-- When a predicate holds on all of the first list, `dropWhile` drops it. -/
theorem dropWhile_append_of_forall {α : Type} (p : α → Bool) (l1 l2 : List α)
    (h : ∀ x ∈ l1, p x = true) :
    (l1 ++ l2).dropWhile p = l2.dropWhile p := by
  induction l1 with
  | nil => rfl
  | cons a l ih =>
      simp only [List.cons_append, List.dropWhile_cons, h a (List.mem_cons_self a l), if_pos]
      exact ih fun x hx => h x (List.mem_cons_of_mem a hx)

/-- During `cluster_points`, the bias slot of every pair `(i, c0)`, `(j, c1)`
with `i < j` and categories below 3 is set exactly once: with weight
`-cos(d*pi)` when `c0 = c1` and `-tanh(sqrt(d)) * 0.1` when `c0 ≠ c1`, where
`d` is the pairwise distance rescaled by the `max_distance` scaling factor. -/
theorem setBiases_cluster_points (pts : List (ℝ × ℝ)) (filename : String)
    (problem_inspector : Bool) (sample : ℕ → ℕ) (i j c0 c1 : ℕ)
    (hij : i < j) (hjn : j < pts.length) (hc0 : c0 < 3) (hc1 : c1 < 3) :
    setBiases (cluster_points pts filename problem_inspector sample) i c0 j c1
      = [if c0 = c1 then
          -Real.cos (get_distance ((pts.map fun p => Coordinate.mk p.1 p.2).getD i default)
              ((pts.map fun p => Coordinate.mk p.1 p.2).getD j default)
            / max (get_max_distance (pts.map fun p => Coordinate.mk p.1 p.2)) 1 * Real.pi)
        else
          -Real.tanh (Real.sqrt
              (get_distance ((pts.map fun p => Coordinate.mk p.1 p.2).getD i default)
                  ((pts.map fun p => Coordinate.mk p.1 p.2).getD j default)
                / max (get_max_distance (pts.map fun p => Coordinate.mk p.1 p.2)) 1)) * 0.1] := by
  have hlen : j < (pts.map fun p => Coordinate.mk p.1 p.2).length := by simpa using hjn
  rw [setBiases, cluster_points, buildEvents]
  simp only [List.filter_append]
  rw [filter_addVars_nil, filter_sameColor _ _ i j c0 c1 hij hlen hc0 hc1,
    filter_diffColor _ _ i j c0 c1 hij hlen hc0 hc1]
  have htail : List.filter (keyMatches i c0 j c1)
      (Event.sampleDQM :: Event.visualizeGroupings filename
        :: [Event.printGroupings
              (get_groupings sample (pts.map fun p => Coordinate.mk p.1 p.2))]) = [] := by
    simp [keyMatches, List.filter_cons]
  rw [htail]
  by_cases hcc : c0 = c1
  · simp [hcc, biasOf]
  · simp [hcc, biasOf]

/-- During `cluster_points`, for every pair `i < j` of point indices and all
categories `c0, c1 < 3`, exactly one quadratic bias is set on the slot of
`(i, c0)`, `(j, c1)`: `-cos(d*pi)` when `c0 = c1` and `-tanh(sqrt(d)) * 0.1`
when `c0 ≠ c1`, with `d` the pairwise distance rescaled by the
`max_distance` factor; moreover the sampler is called exactly once and no
bias is set from the sampler call onwards (claim C1). -/
theorem cluster_biases_spec (pts : List (ℝ × ℝ)) (filename : String)
    (problem_inspector : Bool) (sample : ℕ → ℕ) (i j c0 c1 : ℕ)
    (hij : i < j) (hjn : j < pts.length) (hc0 : c0 < 3) (hc1 : c1 < 3) :
    setBiases (cluster_points pts filename problem_inspector sample) i c0 j c1
        = [if c0 = c1 then
            -Real.cos (get_distance ((pts.map fun p => Coordinate.mk p.1 p.2).getD i default)
                ((pts.map fun p => Coordinate.mk p.1 p.2).getD j default)
              / max (get_max_distance (pts.map fun p => Coordinate.mk p.1 p.2)) 1 * Real.pi)
          else
            -Real.tanh (Real.sqrt
                (get_distance ((pts.map fun p => Coordinate.mk p.1 p.2).getD i default)
                    ((pts.map fun p => Coordinate.mk p.1 p.2).getD j default)
                  / max (get_max_distance (pts.map fun p => Coordinate.mk p.1 p.2)) 1)) * 0.1]
      ∧ (cluster_points pts filename problem_inspector sample).countP isSampleCall = 1
      ∧ ((cluster_points pts filename problem_inspector sample).dropWhile
            fun e => !isSampleCall e).countP isSetQuad = 0 := by
  refine ⟨setBiases_cluster_points pts filename problem_inspector sample i j c0 c1
    hij hjn hc0 hc1, ?_, ?_⟩
  · rw [cluster_points]
    simp only [List.countP_append, List.countP_cons, List.countP_nil]
    rw [countP_buildEvents_eq_zero _ _ isSampleCall_false_of_modelEdit]
    simp [isSampleCall]
  · rw [cluster_points]
    rw [dropWhile_append_of_forall _ _ _
        (fun e he => by
          simp [isSampleCall_false_of_modelEdit e (buildEvents_isModelEdit _ e he)])]
    rw [List.dropWhile_cons, if_neg (by simp [isSampleCall])]
    simp [isSetQuad, List.countP_cons]

/-- Witness for `cluster_biases_spec` at the hardcoded four-point input, the
pair `0 < 1` and the categories `(0, 1)`. -/
theorem cluster_biases_spec_witness :
    setBiases (cluster_points scattered_points clustered_filename true fun _ => 0) 0 0 1 1
        = [if (0 : ℕ) = 1 then
            -Real.cos (get_distance
                ((scattered_points.map fun p => Coordinate.mk p.1 p.2).getD 0 default)
                ((scattered_points.map fun p => Coordinate.mk p.1 p.2).getD 1 default)
              / max (get_max_distance (scattered_points.map fun p => Coordinate.mk p.1 p.2)) 1
              * Real.pi)
          else
            -Real.tanh (Real.sqrt
                (get_distance
                    ((scattered_points.map fun p => Coordinate.mk p.1 p.2).getD 0 default)
                    ((scattered_points.map fun p => Coordinate.mk p.1 p.2).getD 1 default)
                  / max (get_max_distance
                      (scattered_points.map fun p => Coordinate.mk p.1 p.2)) 1)) * 0.1]
      ∧ (cluster_points scattered_points clustered_filename true
          fun _ => 0).countP isSampleCall = 1
      ∧ ((cluster_points scattered_points clustered_filename true fun _ => 0).dropWhile
            fun e => !isSampleCall e).countP isSetQuad = 0 :=
  cluster_biases_spec scattered_points clustered_filename true (fun _ => 0) 0 1 0 1
    (by decide) (by decide) (by decide) (by decide)

/-- The quadratic bias `cluster_points` sets for pair `(i, j)` at categories
`(c0, c1)` depends only on `i`, `j` and on whether `c0 = c1`: any two
category pairs with the same equality status receive the same bias
(claim C10). -/
theorem cluster_bias_category_invariant (pts : List (ℝ × ℝ)) (filename : String)
    (problem_inspector : Bool) (sample : ℕ → ℕ) (i j c0 c1 c0' c1' : ℕ)
    (hij : i < j) (hjn : j < pts.length) (hc0 : c0 < 3) (hc1 : c1 < 3)
    (hc0' : c0' < 3) (hc1' : c1' < 3) (hpar : c0 = c1 ↔ c0' = c1') :
    setBiases (cluster_points pts filename problem_inspector sample) i c0 j c1
      = setBiases (cluster_points pts filename problem_inspector sample) i c0' j c1' := by
  rw [setBiases_cluster_points pts filename problem_inspector sample i j c0 c1
      hij hjn hc0 hc1,
    setBiases_cluster_points pts filename problem_inspector sample i j c0' c1'
      hij hjn hc0' hc1']
  by_cases hcc : c0 = c1
  · rw [if_pos hcc, if_pos (hpar.mp hcc)]
  · rw [if_neg hcc, if_neg fun h => hcc (hpar.mpr h)]

/-- Witness for `cluster_bias_category_invariant`: at the hardcoded input,
the bias for categories `(0, 1)` equals the bias for categories `(2, 0)` on
the pair `0 < 1`. -/
theorem cluster_bias_category_invariant_witness :
    setBiases (cluster_points scattered_points clustered_filename true fun _ => 0) 0 0 1 1
      = setBiases (cluster_points scattered_points clustered_filename true fun _ => 0)
          0 2 1 0 :=
  cluster_bias_category_invariant scattered_points clustered_filename true (fun _ => 0)
    0 1 0 1 2 0 (by decide) (by decide) (by decide) (by decide) (by decide) (by decide)
    (by decide)
